import Mathlib

/-!
Verification of the lumehaven backend (smart-home signal aggregation service)
against its natural-language specification.

The Lean definitions below are a shallow embedding of the Python sources:

* `core/signal.py` — the `Signal` dataclass, `SignalType`, serialization;
* `adapters/openhab/units.py` — unit/format extraction and value formatting;
* `adapters/openhab/adapter.py` — snapshot extraction, live-event processing,
  value coercion, single-item lookup;
* `state/store.py` — the signal store with bounded-queue fan-out and
  throttled drop logging;
* `adapters/manager.py` — the per-adapter reconnect loop.

Python dictionaries become association lists, machine floats used for
retry delays and timestamps become rationals (the delays 5 · 2^k capped at
300 and their comparisons are exact in binary floating point, so `ℚ` is a
faithful carrier), and fallible code returns `Option`/`Except`.
-/

set_option linter.unusedVariables false

namespace Lumehaven

/-- Embedding of `SignalType` (`core/signal.py`): the five-member `StrEnum`
discriminating signal semantics. -/
inductive SignalType where
  | string
  | number
  | boolean
  | enum
  | datetime
deriving DecidableEq, Repr

/-- The lowercase wire name of a `SignalType` (its `StrEnum` value). -/
def SignalType.wire : SignalType → String
  | .string => "string"
  | .number => "number"
  | .boolean => "boolean"
  | .enum => "enum"
  | .datetime => "datetime"

/-- Embedding of the `SignalType(raw)` constructor call: succeeds exactly on
the five wire names, otherwise Python raises `ValueError` (here: `none`). -/
def SignalType.parse (raw : String) : Option SignalType :=
  if raw = "string" then some .string
  else if raw = "number" then some .number
  else if raw = "boolean" then some .boolean
  else if raw = "enum" then some .enum
  else if raw = "datetime" then some .datetime
  else none

/-- Embedding of the `SignalValue` union `str | int | float | bool | None`
(`core/signal.py`).  Python floats are carried as rationals; `null` is
Python `None` (the spec's `absent`). -/
inductive SignalValue where
  | str (s : String)
  | int (n : Int)
  | float (q : ℚ)
  | bool (b : Bool)
  | null
deriving DecidableEq, Repr

/-- Sentinel for undefined states (`core/signal.py`). -/
def UNDEFINED_VALUE : String := "UNDEF"

/-- Sentinel for null states (`core/signal.py`). -/
def NULL_VALUE : String := "NULL"

/-- Embedding of Python `str(value)` on a `SignalValue`.  The float case is a
deterministic rendering standing in for CPython's shortest-repr algorithm;
no theorem below depends on the exact digits produced for floats. -/
def pyStr : SignalValue → String
  | .str s => s
  | .int n => toString n
  | .float q => if q.den = 1 then toString q.num ++ ".0" else toString q
  | .bool b => if b then "True" else "False"
  | .null => "None"

/-- Embedding of the frozen `Signal` dataclass (`core/signal.py`), field for
field. -/
structure Signal where
  id : String
  value : SignalValue
  unit : String
  label : String
  display_value : String
  available : Bool
  signal_type : SignalType
deriving DecidableEq, Repr

/-- Embedding of the `Signal` constructor including `__post_init__`
(`core/signal.py` lines 86–103): the dataclass defaults are
`unit=""`, `label=""`, `display_value=""`, `available=True`,
`signal_type=STRING`, and `__post_init__` replaces an empty
`display_value` by `str(value)` whenever `value` is not `None`. -/
def mkSignal (id : String) (value : SignalValue) (unit : String := "")
    (label : String := "") (display_value : String := "")
    (available : Bool := true) (signal_type : SignalType := .string) : Signal :=
  let dv := if display_value = "" ∧ value ≠ .null then pyStr value else display_value
  ⟨id, value, unit, label, dv, available, signal_type⟩

/-- Embedding of the dictionaries consumed and produced by
`Signal.from_dict` / `Signal.to_dict`.  `Option.none` in a field means the
key is missing.  For `value`, `some .null` is an explicit JSON `null`.
For `signal_type`, `none` covers both a missing key and an explicit `None`
(Python's `data.get("signal_type")` collapses the two). -/
structure SignalDict where
  id : Option String
  value : Option SignalValue
  display_value : Option String
  unit : Option String
  label : Option String
  available : Option Bool
  signal_type : Option String
deriving DecidableEq, Repr

/-- The exceptions `Signal.from_dict` can raise: `KeyError` for a missing
required key, `ValueError` for an invalid `signal_type` string. -/
inductive FromDictError where
  | keyError (key : String)
  | valueError (raw : String)
deriving DecidableEq, Repr

/-- Embedding of `Signal.to_dict` (`core/signal.py` lines 105–120): every
field is emitted, `signal_type` as its lowercase wire name. -/
def Signal.to_dict (s : Signal) : SignalDict :=
  { id := some s.id
    value := some s.value
    display_value := some s.display_value
    unit := some s.unit
    label := some s.label
    available := some s.available
    signal_type := some s.signal_type.wire }

/-- Embedding of `Signal.from_dict` (`core/signal.py` lines 122–173):
requires `value` (then `id`), normalizes the legacy string sentinels
`"UNDEF"`/`"NULL"` to `None`, parses `signal_type` when present
(raising `ValueError` on an invalid name), defaults `available` to
`value is not None`, and defaults `display_value` to `str(value)` (or `""`
for `None`).  The trailing `cls(...)` call runs `__post_init__`, hence the
final `mkSignal`. -/
def Signal.from_dict (data : SignalDict) : Except FromDictError Signal :=
  match data.value with
  | none => .error (.keyError "value")
  | some value₀ =>
    let value : SignalValue :=
      match value₀ with
      | .str s => if s = UNDEFINED_VALUE ∨ s = NULL_VALUE then .null else .str s
      | v => v
    let signalTypeResult : Except FromDictError SignalType :=
      match data.signal_type with
      | some raw =>
        match SignalType.parse raw with
        | some st => .ok st
        | none => .error (.valueError raw)
      | none => .ok .string
    match signalTypeResult with
    | .error e => .error e
    | .ok signal_type =>
      let available := data.available.getD (value ≠ .null)
      match data.id with
      | none => .error (.keyError "id")
      | some id =>
        .ok (mkSignal id value (data.unit.getD "") (data.label.getD "")
          (data.display_value.getD (if value ≠ .null then pyStr value else ""))
          available signal_type)

/-! ### `adapters/openhab/units.py` — unit extraction and value formatting -/

/-- Embedding of the `"SI"` entry of `DEFAULT_UNITS`
(`adapters/openhab/units.py`). -/
def DEFAULT_UNITS_SI : List (String × String) :=
  [("Acceleration", "m/s²"), ("AmountOfSubstance", "mol"), ("Angle", ""),
   ("Area", "m²"), ("ArealDensity", "DU"), ("CatalyticActivity", "kat"),
   ("DataAmount", "bit"), ("DataTransferRate", "bit/s"), ("Density", "g/m³"),
   ("Dimensionless", "%"), ("ElectricPotential", "V"),
   ("ElectricCapacitance", "F"), ("ElectricCharge", "C"),
   ("ElectricConductance", "S"), ("ElectricConductivity", "S/m"),
   ("ElectricCurrent", "A"), ("ElectricInductance", "H"),
   ("ElectricResistance", "Ω"), ("Energy", "J"), ("Force", "N"),
   ("Frequency", "Hz"), ("Illuminance", "Lux"), ("Intensity", "W/m²"),
   ("Length", "m"), ("LuminousFlux", "lm"), ("LuminousIntensity", "cd"),
   ("MagneticFlux", "Wb"), ("MagneticFluxDensity", "T"), ("Mass", "g"),
   ("Power", "W"), ("Pressure", "Pa"), ("Radioactivity", "Bq"),
   ("RadiationDoseAbsorbed", "Gy"), ("RadiationDoseEffective", "Sv"),
   ("SolidAngle", "sr"), ("Speed", "m/s"), ("Temperature", "°C"),
   ("Time", "s"), ("Volume", "l"), ("VolumetricFlowRate", "l/min")]

/-- Embedding of the `"US"` entry of `DEFAULT_UNITS`
(`adapters/openhab/units.py`). -/
def DEFAULT_UNITS_US : List (String × String) :=
  [("Length", "in"), ("Pressure", "inHg"), ("Speed", "mph"),
   ("Temperature", "°F"), ("Volume", "gal"), ("VolumetricFlowRate", "gal/min")]

/-- Association-list lookup standing in for Python `dict` access.  Keys in
the lists we build are unique, so first-match lookup is dict lookup. -/
def lookupKey {α β : Type} [DecidableEq α] (k : α) : List (α × β) → Option β
  | [] => none
  | (k', v) :: t => if k' = k then some v else lookupKey k t

/-- Association-list update standing in for `d[k] = v` on a Python dict:
replace the entry when the key exists, append otherwise. -/
def setKey {α β : Type} [DecidableEq α] (k : α) (v : β) :
    List (α × β) → List (α × β)
  | [] => [(k, v)]
  | (k', v') :: t => if k' = k then (k, v) :: t else (k', v') :: setKey k v t

/-- Association-list deletion standing in for `del d[k]` / `d.pop(k, None)`
on a Python dict (keys unique ⇒ removing the first occurrence is removal). -/
def eraseKey {α β : Type} [DecidableEq α] (k : α) :
    List (α × β) → List (α × β)
  | [] => []
  | (k', v') :: t => if k' = k then t else (k', v') :: eraseKey k t

/-- Embedding of `get_default_units` (`adapters/openhab/units.py`): for
`"US"` the SI table overlaid with the US overrides (`dict |` keeps every SI
key, US values win), otherwise a copy of the SI table. -/
def get_default_units (system : String) : List (String × String) :=
  if system = "US" then
    DEFAULT_UNITS_US.foldl (fun acc kv => setKey kv.1 kv.2 acc) DEFAULT_UNITS_SI
  else DEFAULT_UNITS_SI

/-- Index of the last character of `l` satisfying `p`, if any. -/
def lastIdxWhere (p : Char → Bool) (l : List Char) : Option Nat :=
  match l.reverse.findIdx? p with
  | none => none
  | some i => some (l.length - 1 - i)

/-- Embedding of `PATTERN_REGEX.match` for the anchored regex
`(%\S*[fds])\s*(.*)` (`adapters/openhab/units.py` line 90): the pattern must
start with `%`; the greedy `\S*` with backtracking makes group 1 end at the
last `f`/`d`/`s` inside the leading run of non-whitespace characters; `\s*`
then swallows whitespace and `(.*)` takes the rest of the line. -/
def patternRegexMatch (p : String) : Option (String × String) :=
  match p.data with
  | '%' :: rest =>
    let run := rest.takeWhile (fun c => !c.isWhitespace)
    match lastIdxWhere (fun c => c = 'f' ∨ c = 'd' ∨ c = 's') run with
    | none => none
    | some j =>
      let fmt : String := ⟨'%' :: run.take (j + 1)⟩
      let rem := rest.drop (j + 1)
      let unit : String :=
        ⟨(rem.dropWhile Char.isWhitespace).takeWhile (fun c => c ≠ '\n')⟩
      some (fmt, unit)
  | _ => none

/-- Embedding of `extract_unit_from_pattern` (`adapters/openhab/units.py`
lines 93–118): on a regex match return `(unit, format)` with `%%` in the
unit collapsed to `%`; otherwise `(pattern, "%s")`. -/
def extract_unit_from_pattern (pattern : String) : String × String :=
  match patternRegexMatch pattern with
  | none => (pattern, "%s")
  | some (format_str, unitRaw) => (unitRaw.replace "%%" "%", format_str)

/-- Value of a digit run as a natural number. -/
def digitsToNat (l : List Char) : Nat :=
  l.foldl (fun a c => a * 10 + (c.toNat - 48)) 0

/-- Embedding of Python `float(s)` restricted to finite decimal literals
(optional surrounding whitespace, optional sign, digits with optional
fraction, optional exponent): `none` is a raised `ValueError`.  The
`inf`/`nan`/underscore forms accepted by CPython are not modelled; no
theorem below depends on them. -/
def parseFloat (s : String) : Option ℚ :=
  let t := s.trim.data
  let (sign, t) : ℚ × List Char :=
    match t with
    | '+' :: r => (1, r)
    | '-' :: r => (-1, r)
    | r => (1, r)
  let intPart := t.takeWhile Char.isDigit
  let t := t.drop intPart.length
  let (fracPart, t) : List Char × List Char :=
    match t with
    | '.' :: r => (r.takeWhile Char.isDigit, r.drop (r.takeWhile Char.isDigit).length)
    | r => ([], r)
  if intPart.isEmpty ∧ fracPart.isEmpty then none
  else
    let mantissa : ℚ :=
      (digitsToNat intPart : ℚ) + (digitsToNat fracPart : ℚ) / ((10 : ℚ) ^ fracPart.length)
    match t with
    | [] => some (sign * mantissa)
    | e :: r =>
      if e = 'e' ∨ e = 'E' then
        let (esign, r) : Int × List Char :=
          match r with
          | '+' :: r' => (1, r')
          | '-' :: r' => (-1, r')
          | r' => (1, r')
        let eDigits := r.takeWhile Char.isDigit
        if eDigits.isEmpty ∨ !(r.drop eDigits.length).isEmpty then none
        else some (sign * mantissa * (10 : ℚ) ^ (esign * digitsToNat eDigits))
      else none

/-- Embedding of Python `round()` on a real value: round half to even. -/
def roundHalfEven (q : ℚ) : Int :=
  let f := q.floor
  let r := q - (f : ℚ)
  if r < 1 / 2 then f
  else if r > 1 / 2 then f + 1
  else if f % 2 = 0 then f else f + 1

/-- Precision of a `%...f` conversion: the digits between `.` and the final
`f`, defaulting (as in C/Python) to 6 when no precision is given. -/
def formatPrecision (format_str : String) : Nat :=
  let chars := format_str.data
  match chars.findIdx? (fun c => c = '.') with
  | none => 6
  | some i =>
    let digits := (chars.drop (i + 1)).takeWhile Char.isDigit
    digitsToNat digits

/-- Embedding of `format_str % round(float(value))` for a `d` conversion.
Width/flag modifiers are not modelled (the repository's patterns use plain
`%d`); the rendered digits are those of the rounded integer. -/
def applyIntFormat (n : Int) : String :=
  toString n

/-- Embedding of `format_str % float(value)` for an `f` conversion: fixed
point with the format's precision, ties at the last digit rounded to even. -/
def applyFloatFormat (format_str : String) (q : ℚ) : String :=
  let p := formatPrecision format_str
  let scaled := roundHalfEven (q * (10 : ℚ) ^ p)
  let neg := scaled < 0
  let a := scaled.natAbs
  let ip := a / 10 ^ p
  let fp := a % 10 ^ p
  let fpStr := toString fp
  let fpPadded := String.mk (List.replicate (p - fpStr.length) '0') ++ fpStr
  (if neg then "-" else "") ++ toString ip ++ (if p = 0 then "" else "." ++ fpPadded)

/-- Embedding of Python `str.rstrip()`: drop trailing whitespace. -/
def rstrip (s : String) : String :=
  ⟨(s.data.reverse.dropWhile Char.isWhitespace).reverse⟩

/-- Embedding of `format_value` (`adapters/openhab/units.py` lines 121–176):
`UNDEF`/`NULL` pass through; with no unit and no format the state passes
through; a matching unit suffix of a QuantityType state is stripped along
with trailing whitespace; a `%...d` format rounds, a `%...f` format applies
the precision; a failed numeric parse returns the post-strip string.  (The
source's `except ValueError, TypeError:` is Python-2 clause syntax; the
evident catch-and-fall-through semantics is embedded.) -/
def format_value (state unit format_str : String)
    (is_quantity_type : Bool := false) : String :=
  if state = UNDEFINED_VALUE ∨ state = NULL_VALUE then state
  else if unit = "" ∧ format_str = "" then state
  else
    let value :=
      if is_quantity_type ∧ unit ≠ "" ∧ state.endsWith unit then
        rstrip (state.dropRight unit.length)
      else rstrip state
    if format_str.endsWith "d" then
      match parseFloat value with
      | some q => applyIntFormat (roundHalfEven q)
      | none => value
    else if format_str.endsWith "f" then
      match parseFloat value with
      | some q => applyFloatFormat format_str q
      | none => value
    else value

/-! ### `adapters/openhab/adapter.py` — snapshot extraction and live events -/

/-- Embedding of `OpenHABAdapter._resolve_signal_type` (`adapter.py`
lines 304–328). -/
def resolve_signal_type (base_type : String) : SignalType :=
  if base_type = "Number" ∨ base_type = "Dimmer" ∨ base_type = "Rollershutter" then
    .number
  else if base_type = "Switch" ∨ base_type = "Contact" then .boolean
  else if base_type = "DateTime" then .datetime
  else if base_type = "Player" then .enum
  else .string

/-- Embedding of `OpenHABAdapter._coerce_value` (`adapter.py` lines 330–357):
NUMBER parses the display string as a float, returning an integer when the
float is integral and the string itself on a parse failure; BOOLEAN returns
`display in ("ON", "OPEN")`; everything else returns the string.  (The
source's `except ValueError, TypeError:` is Python-2 clause syntax; the
evident catch-and-fall-through semantics is embedded.) -/
def coerce_value (display : String) (signal_type : SignalType) : SignalValue :=
  if signal_type = .number then
    match parseFloat display with
    | some q => if q.den = 1 then .int q.num else .float q
    | none => .str display
  else if signal_type = .boolean then
    .bool (display = "ON" ∨ display = "OPEN")
  else .str display

/-- Embedding of `_ItemMetadata` (`adapter.py` lines 594–627).  Call sites
below spell out every field; fields the Python call omits take the
`__init__` defaults `unit=""`, `format="%s"`, `is_quantity_type=False`,
`event_state_contains_unit=True`, `label=""`, `signal_type=STRING`. -/
structure ItemMetadata where
  unit : String
  format : String
  is_quantity_type : Bool
  event_state_contains_unit : Bool
  label : String
  signal_type : SignalType
deriving DecidableEq, Repr

/-- Embedding of an OpenHAB item record as consumed by `_extract_signal`.
`none` means the key is missing from the JSON record.
`stateDescriptionPattern` collapses `item.get("stateDescription", {})`
followed by `.get("pattern")` (`_item_pattern`, `adapter.py` lines
491–495): `some p` iff a state description with a non-null pattern is
present. -/
structure Item where
  name : String
  label : Option String
  state : Option String
  type : Option String
  transformedState : Option String
  stateDescriptionPattern : Option String
deriving DecidableEq, Repr

/-- Embedding of `OpenHABAdapter._item_pattern`. -/
def item_pattern (item : Item) : Option String :=
  item.stateDescriptionPattern

/-- Embedding of `OpenHABAdapter._prefixed_id`. -/
def prefixed_id (pfx item_name : String) : String :=
  pfx ++ ":" ++ item_name

/-- Embedding of `OpenHABAdapter._extract_signal` (`adapter.py` lines
359–489).  The branch order is the source's `if/elif` chain: transformed
state, DateTime, state-description pattern, QuantityType,
Rollershutter/Dimmer, default.  The source assigns per-branch
`unit` / `display_value` / `typed_value` / `signal_type` / `metadata`
variables and ends in a single `Signal(..., available=not unavailable)`
call; here that trailing constructor call is inlined into each branch with
exactly the branch's values. -/
def extract_signal (pfx : String) (default_units : List (String × String))
    (item : Item) : Signal × ItemMetadata :=
  let name := item.name
  let label := match item.label with
    | some l => if l = "" then name else l
    | none => name
  let state := item.state.getD ""
  let item_type := item.type.getD ""
  let type_parts := item_type.splitOn ":"
  let base_type := type_parts.headD ""
  let is_quantity_type : Bool := type_parts.length > 1
  let signal_type₀ := resolve_signal_type base_type
  let unavailable : Bool := state = UNDEFINED_VALUE ∨ state = NULL_VALUE
  match item.transformedState with
  | some transformed =>
    (mkSignal (prefixed_id pfx name)
      (if unavailable then .null else .str transformed) "" label
      (if unavailable then "" else transformed) (!unavailable) .string,
     ⟨"", "%s", false, false, label, .string⟩)
  | none =>
    if base_type = "DateTime" then
      (mkSignal (prefixed_id pfx name)
        (if unavailable then .null else .str state) "" label
        (if unavailable then "" else state) (!unavailable) signal_type₀,
       ⟨"", "%s", false, false, label, .datetime⟩)
    else
      match item_pattern item with
      | some pattern =>
        let unit := (extract_unit_from_pattern pattern).1
        let fmt := (extract_unit_from_pattern pattern).2
        (mkSignal (prefixed_id pfx name)
          (if unavailable then .null
           else coerce_value (format_value state unit fmt is_quantity_type)
             signal_type₀)
          unit label
          (if unavailable then ""
           else format_value state unit fmt is_quantity_type)
          (!unavailable) signal_type₀,
         ⟨unit, fmt, is_quantity_type, true, label, signal_type₀⟩)
      | none =>
        if is_quantity_type then
          let quantity_type := (type_parts.get? 1).getD ""
          let unit := (lookupKey quantity_type default_units).getD ""
          (mkSignal (prefixed_id pfx name)
            (if unavailable then .null
             else coerce_value (format_value state unit "%s" true) signal_type₀)
            unit label
            (if unavailable then "" else format_value state unit "%s" true)
            (!unavailable) signal_type₀,
           ⟨unit, "%s", true, true, label, signal_type₀⟩)
        else if base_type = "Rollershutter" ∨ base_type = "Dimmer" then
          (mkSignal (prefixed_id pfx name)
            (if unavailable then .null else coerce_value state .number)
            "%" label (if unavailable then "" else state) (!unavailable)
            signal_type₀,
           ⟨"%", "%d", false, false, label, .number⟩)
        else
          (mkSignal (prefixed_id pfx name)
            (if unavailable then .null else coerce_value state signal_type₀)
            "" label (if unavailable then "" else state) (!unavailable)
            signal_type₀,
           ⟨"", "%s", false, false, label, signal_type₀⟩)

/-- Embedding of a live-event payload entry: `state : none` means the key is
missing (Python's `payload.get("state", "")` then yields `""`), and
`state : some none` is an explicit JSON `null` (Python `None`). -/
structure EventPayload where
  state : Option (Option String)
  displayState : Option String
deriving DecidableEq, Repr

/-- Embedding of `OpenHABAdapter._process_event` (`adapter.py` lines
497–557).  `fx` is the `ftfy.fix_encoding` mojibake-repair pass, an external
library call kept abstract as a string transformation; the `except
Exception` wrapper has no remaining failure path once `displayState`, when
present, is a string, so the embedding is total. -/
def process_event (fx : String → String)
    (item_metadata : List (String × ItemMetadata)) (pfx : String)
    (item_name : String) (payload : EventPayload) : Option Signal :=
  match lookupKey item_name item_metadata with
  | none => none
  | some metadata =>
    let raw_state : Option String :=
      match payload.state with
      | none => some ""
      | some v => v
    match raw_state with
    | none =>
      some (mkSignal (prefixed_id pfx item_name) .null metadata.unit
        metadata.label "" false metadata.signal_type)
    | some rs =>
      if rs = UNDEFINED_VALUE ∨ rs = NULL_VALUE then
        some (mkSignal (prefixed_id pfx item_name) .null metadata.unit
          metadata.label "" false metadata.signal_type)
      else
        let display_value :=
          if metadata.event_state_contains_unit then
            format_value (fx rs) metadata.unit metadata.format
              metadata.is_quantity_type
          else
            match payload.displayState with
            | some ds => fx ds
            | none => fx rs
        let typed_value := coerce_value display_value metadata.signal_type
        some (mkSignal (prefixed_id pfx item_name) typed_value metadata.unit
          metadata.label display_value true metadata.signal_type)

/-- The failures the adapter can surface (`core/exceptions.py`):
`SmartHomeConnectionError` and `SignalNotFoundError`. -/
inductive AdapterFailure where
  | connectionError (system url : String)
  | signalNotFound (signal_id : String)
deriving DecidableEq, Repr

/-- Embedding of the response handling of `OpenHABAdapter.get_signal`
(`adapter.py` lines 194–226): a 404 returns `None`; any other 4xx/5xx makes
`raise_for_status` raise, which the adapter converts to
`SmartHomeConnectionError`; otherwise the item is extracted. -/
def get_signal (pfx base_url : String)
    (default_units : List (String × String)) (signal_id : String)
    (status : Nat) (item : Item) : Except AdapterFailure (Option Signal) :=
  if status = 404 then .ok none
  else if 400 ≤ status ∧ status ≤ 599 then
    .error (.connectionError "openhab" base_url)
  else .ok (some (extract_signal pfx default_units item).1)

/-! ### `config.py` and `state/store.py` — settings, signal store -/

/-- Embedding of `config.Settings` (`config.py` lines 74–110) with its
declared fields and defaults.  Environment/YAML resolution is out of scope
(spec §1); what matters here is the exact field set: the class declares
`subscriber_queue_size` but **no** `drop_log_interval`. -/
structure Settings where
  openhab_url : String
  openhab_tag : String
  log_level : String
  cors_origins : List String
  host : String
  port : Nat
  subscriber_queue_size : Nat
  config_file : String
deriving DecidableEq, Repr

/-- Embedding of `get_settings()` (`config.py` lines 113–120): the cached
`Settings()` instance with the declared defaults. -/
def get_settings : Settings :=
  ⟨"http://localhost:8080", "", "INFO", ["http://localhost:5173"], "0.0.0.0",
   8000, 10000, "config.yaml"⟩

/-- Python exceptions that escape the store code. -/
inductive PyError where
  | attributeError (name : String)
deriving DecidableEq, Repr

/-- Embedding of the attribute access `settings.drop_log_interval`
(`state/store.py` line 197): `config.Settings` declares no
`drop_log_interval` field, so on a real (non-mock) settings object this
access raises `AttributeError`. -/
def Settings.getattr_drop_log_interval (s : Settings) : Except PyError ℚ :=
  .error (.attributeError "drop_log_interval")

/-- Embedding of one subscriber: an `asyncio.Queue(maxsize)` identified by
the queue object's identity (here a numeral id). -/
structure Subscriber where
  sid : Nat
  queue : List Signal
  maxsize : Nat
deriving DecidableEq, Repr

/-- Embedding of `asyncio.Queue.full()`: a queue with positive `maxsize` is
full when it holds at least `maxsize` items. -/
def Subscriber.isFull (q : Subscriber) : Bool :=
  0 < q.maxsize ∧ q.maxsize ≤ q.queue.length

/-- Embedding of `queue.put_nowait(signal)`: `none` is a raised
`asyncio.QueueFull`, otherwise the signal is appended. -/
def put_nowait (q : Subscriber) (s : Signal) : Option Subscriber :=
  if q.isFull then none else some { q with queue := q.queue ++ [s] }

/-- Embedding of the mutable state of `SignalStore` (`state/store.py`):
`_signals`, `_subscribers` and `_drop_stats` (subscriber id mapped to
`(drop_count, last_log_time)`). -/
structure StoreState where
  signals : List (String × Signal)
  subscribers : List Subscriber
  drop_stats : List (Nat × (Nat × ℚ))
deriving DecidableEq, Repr

namespace SignalStore

/-- Embedding of `SignalStore.get`. -/
def get (st : StoreState) (signal_id : String) : Option Signal :=
  lookupKey signal_id st.signals

/-- Embedding of `SignalStore.set`. -/
def set (st : StoreState) (s : Signal) : StoreState :=
  { st with signals := setKey s.id s st.signals }

/-- Embedding of `SignalStore.set_many` (`dict.update`). -/
def set_many (st : StoreState) (signals : List (String × Signal)) : StoreState :=
  { st with signals := signals.foldl (fun m kv => setKey kv.1 kv.2 m) st.signals }

/-- Embedding of `SignalStore._log_drop_throttled` (`state/store.py` lines
190–220).  The method first evaluates `get_settings().drop_log_interval`
(lines 196–197); since `config.Settings` declares no such field, that
attribute access raises `AttributeError` before any logging branch runs,
so the call always returns the error.  The intended branch structure of
the source (first drop logs once and records `(0, now)`; a later drop
increments the count or, past the interval, emits one summary and resets)
is kept verbatim under the bind, where with the real settings it is
unreachable. -/
def log_drop_throttled (drop_stats : List (Nat × (Nat × ℚ))) (sid : Nat)
    (signal_id : String) (now : ℚ) :
    Except PyError (List (Nat × (Nat × ℚ)) × List String) :=
  match get_settings.getattr_drop_log_interval with
  | .error e => .error e
  | .ok drop_log_interval =>
    .ok (match lookupKey sid drop_stats with
      | none =>
        (setKey sid (0, now) drop_stats,
         ["Subscriber queue full, dropping update for " ++ signal_id])
      | some (drop_count₀, last_log_time) =>
        let drop_count := drop_count₀ + 1
        if drop_log_interval ≤ now - last_log_time then
          (setKey sid (0, now) drop_stats,
           ["Subscriber queue full, dropped " ++ toString drop_count ++
            " updates in last " ++ applyFloatFormat "%.0f" drop_log_interval ++
            "s (latest: " ++ signal_id ++ ")"])
        else
          (setKey sid (drop_count, last_log_time) drop_stats, []))

/-- The fan-out loop of `SignalStore.publish` (`state/store.py` lines
181–188): attempt a non-blocking enqueue for each subscriber; on success
delete the subscriber's drop record, on `QueueFull` invoke the throttled
drop logger.  An exception raised by the logger aborts the loop and
propagates; mutations made before the raise remain in place (Python
mutates the store's state in place), hence the accumulator is returned
alongside the raised error. -/
def publishLoop (s : Signal) (now : ℚ) :
    List Subscriber → (List Subscriber × List (Nat × (Nat × ℚ)) × List String) →
    (List Subscriber × List (Nat × (Nat × ℚ)) × List String) × Option PyError
  | [], acc => (acc, none)
  | q :: rest, (subs, stats, warns) =>
    match put_nowait q s with
    | some q' => publishLoop s now rest (subs ++ [q'], eraseKey q.sid stats, warns)
    | none =>
      match log_drop_throttled stats q.sid s.id now with
      | .ok (stats', w) => publishLoop s now rest (subs ++ [q], stats', warns ++ w)
      | .error e => ((subs ++ (q :: rest), stats, warns), some e)

/-- Embedding of `SignalStore.publish` (`state/store.py` lines 169–188):
store the signal, then fan it out over a snapshot of the subscriber set.
Returns the resulting state and logged warnings, paired with the exception
`publish` raises to its caller, if any: the `QueueFull` of a full queue is
caught, but the `AttributeError` from the drop logger's settings read
escapes the handler. -/
def publish (st : StoreState) (s : Signal) (now : ℚ) :
    (StoreState × List String) × Option PyError :=
  let st₁ := set st s
  let ((subs, stats, warns), err) :=
    publishLoop s now st₁.subscribers ([], st₁.drop_stats, [])
  (({ st₁ with subscribers := subs, drop_stats := stats }, warns), err)

end SignalStore

/-! ### `adapters/manager.py` — per-adapter reconnect loop -/

/-- Embedding of `INITIAL_RETRY_DELAY = 5.0` (`adapters/manager.py`). -/
def INITIAL_RETRY_DELAY : ℚ := 5

/-- Embedding of `MAX_RETRY_DELAY = 300.0` (`adapters/manager.py`). -/
def MAX_RETRY_DELAY : ℚ := 300

/-- Embedding of `RETRY_BACKOFF_FACTOR = 2.0` (`adapters/manager.py`). -/
def RETRY_BACKOFF_FACTOR : ℚ := 2

/-- Embedding of the `connected` / `error` / `retry_delay` fields of
`AdapterState` (`adapters/manager.py`); powers of two times five capped at
300 are exact in binary floating point, so `ℚ` is a faithful carrier. -/
structure AdapterState where
  connected : Bool
  error : Option String
  retry_delay : ℚ
deriving DecidableEq, Repr

/-- How one pass of the event stream in `_sync_with_retry` ended: the
iterator completed normally, or an exception was raised. -/
inductive StreamOutcome where
  | ended
  | failed (msg : String)
deriving DecidableEq, Repr

/-- The `last_error` text `_sync_with_retry` records for a stream outcome. -/
def streamErrorMsg : StreamOutcome → String
  | .ended => "Event stream closed by server"
  | .failed msg => msg

/-- Embedding of the failure bookkeeping of `_sync_with_retry` (lines
147–160): both a normal stream end and an exception set
`connected = False` and record the error. -/
def markFailed (st : AdapterState) (outcome : StreamOutcome) : AdapterState :=
  { st with connected := false, error := some (streamErrorMsg outcome) }

/-- Embedding of the backoff advance of `_sync_with_retry` (lines 163–167),
executed right after the sleep:
`retry_delay = min(retry_delay * RETRY_BACKOFF_FACTOR, MAX_RETRY_DELAY)`. -/
def advanceRetryDelay (st : AdapterState) : AdapterState :=
  { st with retry_delay := min (st.retry_delay * RETRY_BACKOFF_FACTOR) MAX_RETRY_DELAY }

/-- Embedding of the reconnect attempt of `_sync_with_retry` (lines
170–179): a successful `get_signals()` seeds the store and resets the
state to connected with the initial delay; a failure leaves the state for
the next loop iteration. -/
def applyReconnect (store : StoreState) (st : AdapterState)
    (result : Except String (List (String × Signal))) :
    StoreState × AdapterState :=
  match result with
  | .ok signals =>
    (SignalStore.set_many store signals,
     { st with connected := true, error := none,
               retry_delay := INITIAL_RETRY_DELAY })
  | .error _ => (store, st)

/-- One full iteration of the `while True` loop of `_sync_with_retry`
(`adapters/manager.py` lines 136–179): publish the events the stream
yielded (a `publish` exception, like a stream exception, is caught by the
loop's `except Exception` and surfaces as the `outcome`), record the
failure, sleep and advance the backoff, then attempt the re-snapshot. -/
def syncCycle (store : StoreState) (st : AdapterState) (events : List Signal)
    (outcome : StreamOutcome) (now : ℚ)
    (reconnect : Except String (List (String × Signal))) :
    StoreState × AdapterState :=
  let store₁ := events.foldl
    (fun acc s => (SignalStore.publish acc s now).1.1) store
  applyReconnect store₁ (advanceRetryDelay (markFailed st outcome)) reconnect

/-! ### Spec-side predicates (modelled from the spec's words, for comparison
with the code-side definitions above) -/

/-- The three-way equivalence of spec §8 property 1, as a decidable check:
`available = false ⇔ value = absent ⇔ display_value = ""`. -/
def threeWayConsistent (s : Signal) : Bool :=
  (decide (s.available = false) == decide (s.value = .null)) &&
  (decide (s.value = .null) == decide (s.display_value = ""))

/-- The weaker signal invariant that actually holds of adapter-produced
signals: `available = false ⇔ value = absent`, and
`available = false ⇒ display_value = ""`. -/
def availValueConsistent (s : Signal) : Bool :=
  (decide (s.available = false) == decide (s.value = .null)) &&
  (s.available || decide (s.display_value = ""))

/-- The data-model invariants of spec §3: `available = false ⇒ value =
absent ∧ display_value = ""` and `value = absent ⇒ available = false`. -/
def specWellFormed (s : Signal) : Bool :=
  (s.available || (decide (s.value = .null) && decide (s.display_value = ""))) &&
  (!(decide (s.value = .null)) || !s.available)

/-! ### Claim C5 — constructor behavior: display autofill, `available` default -/

/-- C5 counterexample: constructing a `Signal` with `value = None` and no
explicit `available` yields `available = true` (the dataclass default),
not `false` as the claim states. -/
theorem mkSignal_null_default_available :
    (mkSignal "x" SignalValue.null).value = SignalValue.null ∧
    (mkSignal "x" SignalValue.null).available = true := by
  decide

/-- C5 amended: with an empty `display_value` and a non-absent value the
constructor sets `display_value` to `str(value)`; and when `available` is
not supplied it is the dataclass default `true` regardless of `value`. -/
theorem mkSignal_display_autofill_and_available_default :
    (∀ (id : String) (v : SignalValue) (u l : String) (av : Bool)
      (st : SignalType), v ≠ .null →
      (mkSignal id v u l "" av st).display_value = pyStr v) ∧
    (∀ (id : String) (v : SignalValue), (mkSignal id v).available = true) := by
  constructor
  · intro id v u l av st hv
    simp [mkSignal, hv]
  · intro id v
    rfl

/-- Witness for the amended C5 at a concrete input. -/
theorem mkSignal_display_autofill_witness :
    (mkSignal "t" (SignalValue.int 3) "" "" "" true .number).display_value =
      pyStr (SignalValue.int 3) ∧
    (mkSignal "u" SignalValue.null).available = true :=
  ⟨mkSignal_display_autofill_and_available_default.1 "t" (.int 3) "" "" true
    .number (by decide),
   mkSignal_display_autofill_and_available_default.2 "u" SignalValue.null⟩

/-! ### Claim C7 — BOOLEAN value coercion -/

/-- C7 counterexample: for a display string that is none of `ON`, `OPEN`,
`OFF`, `CLOSED`, the coercion returns `False`, not the string itself as the
claim's fallback clause states. -/
theorem coerce_value_boolean_no_fallback :
    coerce_value "hello" .boolean = SignalValue.bool false ∧
    SignalValue.bool false ≠ SignalValue.str "hello" := by
  decide

/-- C7 amended: BOOLEAN coercion returns `true` exactly on `ON`/`OPEN` and
`false` on every other display string (including `OFF` and `CLOSED`);
there is no fallback to the string for BOOLEAN. -/
theorem coerce_value_boolean_eq (display : String) :
    coerce_value display .boolean =
      SignalValue.bool (decide (display = "ON" ∨ display = "OPEN")) := by
  rfl

/-! ### Claim C8 — 404 on single-item lookup -/

/-- C8: at the failing input (upstream answers HTTP 404 for the requested
item) the adapter's `get_signal` evaluates to `None` returned to the
caller, not to the `SignalNotFound` error that the spec and the adapter's
own test (`test_raises_not_found_for_missing_item`) require. -/
theorem get_signal_404_returns_none :
    get_signal "oh" "http://openhab:8080" [] "NonExistent" 404
        ⟨"NonExistent", none, none, none, none, none⟩ = .ok none ∧
    (Except.ok none : Except AdapterFailure (Option Signal)) ≠
      .error (.signalNotFound "NonExistent") :=
  ⟨rfl, fun h => Except.noConfusion h⟩

/-! ### Claim C9 — backoff advance and reset on reconnect -/

/-- C9: in every iteration of the pump loop, the retry delay following the
sleep is `min(retry_delay × 2, 300)` whatever the failure (stream end,
stream error — and it is still this value when the re-snapshot then
fails, since a failed reconnect leaves the state untouched); and a
successful re-snapshot resets the adapter state to
`connected = true, last_error = absent, retry_delay = 5`. -/
theorem syncCycle_backoff_and_reset (store : StoreState) (st : AdapterState)
    (events : List Signal) (outcome : StreamOutcome) (now : ℚ)
    (err : String) (sigs : List (String × Signal)) :
    (advanceRetryDelay (markFailed st outcome)).retry_delay =
      min (st.retry_delay * 2) 300 ∧
    ((syncCycle store st events outcome now (.error err)).2.retry_delay =
      min (st.retry_delay * 2) 300 ∧
     (syncCycle store st events outcome now (.error err)).2.connected =
      false) ∧
    (syncCycle store st events outcome now (.ok sigs)).2 =
      ⟨true, none, 5⟩ := by
  refine ⟨rfl, ⟨rfl, rfl⟩, rfl⟩

/-! ### Claim C4 — serialization round-trip -/

/-- C4 counterexample: a well-formed signal (per the spec §3 invariants)
whose value is the string `"UNDEF"` does not round-trip: `from_dict`
re-normalizes the value to `None`. -/
theorem roundtrip_counterexample :
    specWellFormed (mkSignal "x" (SignalValue.str "UNDEF")) = true ∧
    Signal.from_dict (Signal.to_dict (mkSignal "x" (SignalValue.str "UNDEF"))) ≠
      .ok (mkSignal "x" (SignalValue.str "UNDEF")) := by
  refine ⟨by decide, fun h => ?_⟩
  have hcomp : Signal.from_dict (Signal.to_dict (mkSignal "x" (SignalValue.str "UNDEF"))) =
      .ok (mkSignal "x" SignalValue.null "" "" "UNDEF" true .string) := rfl
  rw [hcomp] at h
  injection h with h'
  exact absurd (congrArg Signal.value h') (by decide)

/-- `SignalType.parse` inverts the wire name. -/
theorem parse_wire (st : SignalType) : SignalType.parse st.wire = some st := by
  cases st <;> rfl

/-- Re-running the constructor on a constructed signal's `display_value`
changes nothing (`__post_init__` is idempotent). -/
theorem mkSignal_idem (id : String) (v : SignalValue) (u l dv : String)
    (av : Bool) (st : SignalType) :
    mkSignal id v u l (mkSignal id v u l dv av st).display_value av st =
      mkSignal id v u l dv av st := by
  simp only [mkSignal]
  by_cases hc : dv = "" ∧ v ≠ SignalValue.null
  · simp only [if_pos hc]
    by_cases hp : pyStr v = ""
    · simp [hp, hc.2]
    · simp [hp]
  · simp only [if_neg hc]

/-- `from_dict` on a fully explicit dictionary with a non-sentinel value:
every `.get` default is bypassed and the constructor is re-invoked. -/
theorem from_dict_all_some (i : String) (v : SignalValue) (dv u l : String)
    (av : Bool) (st : SignalType)
    (h1 : v ≠ .str UNDEFINED_VALUE) (h2 : v ≠ .str NULL_VALUE) :
    Signal.from_dict ⟨some i, some v, some dv, some u, some l, some av,
        some st.wire⟩ = .ok (mkSignal i v u l dv av st) := by
  cases v with
  | str s' =>
    have hs : ¬(s' = UNDEFINED_VALUE ∨ s' = NULL_VALUE) := by
      rintro (rfl | rfl)
      · exact h1 rfl
      · exact h2 rfl
    simp only [Signal.from_dict, parse_wire, if_neg hs, Option.getD_some]
  | int n => simp only [Signal.from_dict, parse_wire, Option.getD_some]
  | float q => simp only [Signal.from_dict, parse_wire, Option.getD_some]
  | bool b => simp only [Signal.from_dict, parse_wire, Option.getD_some]
  | null => simp only [Signal.from_dict, parse_wire, Option.getD_some]

/-- C4 amended: deserialization inverts serialization for every constructed
signal whose value is not one of the literal sentinel strings
`"UNDEF"` / `"NULL"` (on those, `from_dict` re-normalizes the value to
absent, see the counterexample). -/
theorem from_dict_to_dict_id (id : String) (v : SignalValue) (u l dv : String)
    (av : Bool) (st : SignalType)
    (h1 : v ≠ .str UNDEFINED_VALUE) (h2 : v ≠ .str NULL_VALUE) :
    Signal.from_dict (Signal.to_dict (mkSignal id v u l dv av st)) =
      .ok (mkSignal id v u l dv av st) := by
  have hdict : Signal.to_dict (mkSignal id v u l dv av st) =
      ⟨some id, some v, some (mkSignal id v u l dv av st).display_value,
       some u, some l, some av, some st.wire⟩ := rfl
  rw [hdict,
    from_dict_all_some id v (mkSignal id v u l dv av st).display_value u l
      av st h1 h2,
    mkSignal_idem id v u l dv av st]

/-- Witness for the amended C4 at a concrete signal. -/
theorem from_dict_to_dict_id_witness :
    Signal.from_dict (Signal.to_dict
        (mkSignal "w" (SignalValue.int 7) "W" "Power" "" true .number)) =
      .ok (mkSignal "w" (SignalValue.int 7) "W" "Power" "" true .number) :=
  from_dict_to_dict_id "w" (.int 7) "W" "Power" "" true .number
    (by decide) (by decide)

/-! ### Claim C6 — sentinel normalization in `from_dict` -/

/-- C6 counterexample: with an explicit `available: true` alongside a
`"UNDEF"` value, `from_dict` honors the explicit field — the result has
`available = true`, not `false` as the claim's "regardless of the
mapping's other fields" requires. -/
theorem from_dict_undef_explicit_available :
    Signal.from_dict ⟨some "x", some (.str "UNDEF"), none, none, none,
        some true, none⟩ =
      .ok (mkSignal "x" SignalValue.null "" "" "" true .string) ∧
    (mkSignal "x" SignalValue.null "" "" "" true .string).available ≠ false := by
  exact ⟨rfl, by decide⟩

/-- C6 amended: when `from_dict` succeeds on a mapping whose value is the
literal string `"UNDEF"` or `"NULL"`, the result has `value = absent`
always, and `available` equal to the mapping's explicit `available` field
when present and `false` otherwise. -/
theorem from_dict_sentinel_normalization (d : SignalDict) (v₀ : SignalValue)
    (s : Signal) (hval : d.value = some v₀)
    (hsent : v₀ = .str UNDEFINED_VALUE ∨ v₀ = .str NULL_VALUE)
    (hok : Signal.from_dict d = .ok s) :
    s.value = SignalValue.null ∧ s.available = d.available.getD false := by
  obtain ⟨oid, oval, odv, ou, ol, oav, ost⟩ := d
  simp only at hval hok ⊢
  subst hval
  rcases hsent with rfl | rfl <;>
  · rcases ost with _ | raw
    · rcases oid with _ | i
      · simp only [Signal.from_dict] at hok
        exact absurd hok (fun h => Except.noConfusion h)
      · simp only [Signal.from_dict] at hok
        injection hok with hok
        subst hok
        exact ⟨rfl, rfl⟩
    · rcases hp : SignalType.parse raw with _ | st <;>
        simp only [Signal.from_dict, hp] at hok
      · exact absurd hok (fun h => Except.noConfusion h)
      · rcases oid with _ | i
        · exact absurd hok (fun h => Except.noConfusion h)
        · injection hok with hok
          subst hok
          exact ⟨rfl, rfl⟩

/-- Witness for the amended C6: a legacy mapping (no explicit `available`)
with a `"NULL"` value yields an unavailable signal. -/
theorem from_dict_sentinel_normalization_witness :
    (mkSignal "y" SignalValue.null "" "" "" false .string).value =
      SignalValue.null ∧
    (mkSignal "y" SignalValue.null "" "" "" false .string).available =
      (none : Option Bool).getD false :=
  from_dict_sentinel_normalization
    ⟨some "y", some (.str "NULL"), none, none, none, none, none⟩
    (.str "NULL") (mkSignal "y" SignalValue.null "" "" "" false .string)
    rfl (Or.inr rfl) rfl

/-! ### Claim C10 — `signal_type` validation in `from_dict` -/

/-- C10 counterexample: a mapping with an invalid `signal_type` but no
`value` key raises `KeyError("value")`, not `ValueError` — the value check
precedes the `signal_type` parse. -/
theorem from_dict_invalid_type_missing_value :
    Signal.from_dict ⟨none, none, none, none, none, none, some "bogus"⟩ =
      .error (.keyError "value") ∧
    FromDictError.keyError "value" ≠ .valueError "bogus" := by
  exact ⟨rfl, by decide⟩

/-- C10 amended: on every mapping that does contain the required `value`
key, a present non-`None` `signal_type` outside the five wire names makes
`from_dict` raise `ValueError`; and the STRING default applies when
`signal_type` is missing or `None`. -/
theorem from_dict_signal_type_validation :
    (∀ (d : SignalDict) (raw : String), d.value.isSome = true →
      d.signal_type = some raw →
      raw ∉ ["string", "number", "boolean", "enum", "datetime"] →
      Signal.from_dict d = .error (.valueError raw)) ∧
    (∀ (d : SignalDict) (s : Signal), d.signal_type = none →
      Signal.from_dict d = .ok s → s.signal_type = .string) := by
  constructor
  · intro d raw hv hst hmem
    obtain ⟨oid, oval, odv, ou, ol, oav, ost⟩ := d
    simp only at hv hst ⊢
    subst hst
    have hp : SignalType.parse raw = none := by
      simp only [List.mem_cons, List.not_mem_nil, or_false] at hmem
      push_neg at hmem
      obtain ⟨n1, n2, n3, n4, n5⟩ := hmem
      simp [SignalType.parse, n1, n2, n3, n4, n5]
    rcases oval with _ | v₀
    · exact absurd hv (by decide)
    · simp only [Signal.from_dict, hp]
  · intro d s hst hok
    obtain ⟨oid, oval, odv, ou, ol, oav, ost⟩ := d
    simp only at hst hok
    subst hst
    rcases oval with _ | v₀ <;> simp only [Signal.from_dict] at hok
    · exact absurd hok (fun h => Except.noConfusion h)
    · rcases oid with _ | i
      · exact absurd hok (fun h => Except.noConfusion h)
      · injection hok with hok
        subst hok
        rfl

/-- Witness for the amended C10 at concrete mappings. -/
theorem from_dict_signal_type_validation_witness :
    Signal.from_dict ⟨some "x", some (.int 1), none, none, none, none,
        some "bogus"⟩ = .error (.valueError "bogus") ∧
    (mkSignal "x" (SignalValue.int 1) "" "" "1" true .string).signal_type =
      .string :=
  ⟨from_dict_signal_type_validation.1
      ⟨some "x", some (.int 1), none, none, none, none, some "bogus"⟩
      "bogus" rfl rfl (by decide),
   from_dict_signal_type_validation.2
      ⟨some "x", some (.int 1), none, none, none, none, none⟩
      (mkSignal "x" (SignalValue.int 1) "" "" "1" true .string) rfl rfl⟩

/-! ### Claim C1 — the availability invariant -/

/-- C1 counterexample: the bare `Signal` constructor does not enforce the
three-way equivalence — `Signal(id, value=None)` keeps the dataclass
default `available=True` while `value` is absent. -/
theorem mkSignal_threeWay_counterexample :
    threeWayConsistent (mkSignal "x" SignalValue.null) = false ∧
    (mkSignal "x" SignalValue.null).value = SignalValue.null := by
  decide

/-- `_coerce_value` never produces an absent value. -/
theorem coerce_value_ne_null (d : String) (st : SignalType) :
    coerce_value d st ≠ SignalValue.null := by
  unfold coerce_value
  split_ifs with h1 h2
  · cases hp : parseFloat d
    · simp [hp]
    · simp only [hp]
      split_ifs <;> simp
  · simp
  · simp

/-- An unavailable adapter signal (absent value, empty display, explicit
`available=False`) satisfies the availability invariant. -/
theorem availValueConsistent_unavail (id u l : String) (st : SignalType) :
    availValueConsistent (mkSignal id SignalValue.null u l "" false st) = true := by
  rfl

/-- An available adapter signal with a present value satisfies the
availability invariant. -/
theorem availValueConsistent_avail (id u l dv : String) (v : SignalValue)
    (st : SignalType) (h : v ≠ SignalValue.null) :
    availValueConsistent (mkSignal id v u l dv true st) = true := by
  simp [mkSignal, availValueConsistent, h]

/-- Every `_extract_signal` branch emits either the unavailable shape or an
available signal with a present value. -/
theorem availValueConsistent_branch (id u l d : String) (v : SignalValue)
    (st : SignalType) (b : Bool) (hv : v ≠ SignalValue.null) :
    availValueConsistent (mkSignal id (if b then SignalValue.null else v) u l
      (if b then "" else d) (!b) st) = true := by
  cases b
  · simpa using availValueConsistent_avail id u l d v st hv
  · simpa using availValueConsistent_unavail id u l st

/-- C1 amended: every signal produced by the adapter's snapshot extraction
and live-event processing satisfies `available = false ⇔ value = absent`
and `available = false ⇒ display_value = ""` — but not the full three-way
equivalence (an available signal may have an empty display string), and
the bare constructor enforces nothing (see the counterexample). -/
theorem extract_process_avail_value_consistent :
    (∀ (pfx : String) (du : List (String × String)) (item : Item),
      availValueConsistent (extract_signal pfx du item).1 = true) ∧
    (∀ (fx : String → String) (mm : List (String × ItemMetadata))
      (pfx item_name : String) (payload : EventPayload),
      (process_event fx mm pfx item_name payload).all availValueConsistent
        = true) := by
  constructor
  · intro pfx du item
    unfold extract_signal
    dsimp only
    split
    · exact availValueConsistent_branch _ _ _ _ _ _ _
        (fun h => SignalValue.noConfusion h)
    · split
      · exact availValueConsistent_branch _ _ _ _ _ _ _
          (fun h => SignalValue.noConfusion h)
      · split
        · exact availValueConsistent_branch _ _ _ _ _ _ _
            (coerce_value_ne_null _ _)
        · split
          · exact availValueConsistent_branch _ _ _ _ _ _ _
              (coerce_value_ne_null _ _)
          · split
            · exact availValueConsistent_branch _ _ _ _ _ _ _
                (coerce_value_ne_null _ _)
            · exact availValueConsistent_branch _ _ _ _ _ _ _
                (coerce_value_ne_null _ _)
  · intro fx mm pfx item_name payload
    unfold process_event
    dsimp only
    split
    · rfl
    · split
      · exact availValueConsistent_unavail _ _ _ _
      · split
        · exact availValueConsistent_unavail _ _ _ _
        · exact availValueConsistent_avail _ _ _ _ _ _
            (coerce_value_ne_null _ _)

/-! ### Claim C2 — `publish` raises on the first queue-full drop -/

/-- C2: at the failing input — a store with one subscriber whose bounded
queue is already full — `publish` raises `AttributeError` to its caller:
the `QueueFull` handler calls `_log_drop_throttled`, whose
`settings.drop_log_interval` read fails because `config.Settings` declares
no such field.  The claim's propagation policy ("publish never raises") is
what the spec (§7) and the store's tests (which patch `get_settings` with
a mock that has the attribute) intend, so the missing configuration field
is the slip.  The signal write itself precedes the raise, so the store
still holds the published signal afterwards. -/
theorem publish_first_drop_raises :
    (SignalStore.publish
        ⟨[], [⟨0, [mkSignal "old" (.str "x")], 1⟩], []⟩
        (mkSignal "a" (.str "v")) 1).2 =
      some (.attributeError "drop_log_interval") ∧
    SignalStore.get
      (SignalStore.publish
        ⟨[], [⟨0, [mkSignal "old" (.str "x")], 1⟩], []⟩
        (mkSignal "a" (.str "v")) 1).1.1 "a" =
      some (mkSignal "a" (.str "v")) := by
  exact ⟨rfl, rfl⟩

/-! ### Claim C3 — the throttled drop logger never runs its branches -/

/-- C3: `_log_drop_throttled` evaluates `get_settings().drop_log_interval`
before any logging branch, and `config.Settings` declares no
`drop_log_interval` field, so with the real settings every call raises
`AttributeError`: the first overflow emits no warning and records nothing,
and the interval behaviors the claim (and the spec, §4.3) describe are
unreachable.  The store's unit tests only reach them by patching
`get_settings` with a mock that carries the attribute, so the missing
configuration field is the slip. -/
theorem log_drop_throttled_raises (stats : List (Nat × (Nat × ℚ)))
    (sid : Nat) (sigid : String) (now : ℚ) :
    SignalStore.log_drop_throttled stats sid sigid now =
      .error (.attributeError "drop_log_interval") := by
  rfl

end Lumehaven
